import Mathlib

/-!
Verification of the contract-analyser pipeline (`Oppss.py`): the clause
presence checker built on word-boundary regular-expression search over
lowercased text, the file-type extraction dispatch, and the sequential
analysis step of `main`.

The embedding models the Python text pipeline over `List Char` / `String`.
Python's `str.lower` and the regex classes are Unicode-aware; the texts and
taxonomies of this program are plain Latin, and the embedding models the
character operations on that range (`Char.toLower`, ASCII alphanumerics).
-/

/-- Word character in the sense of the regex metaclass backslash-w as it acts
on the program's Latin texts: an alphanumeric character or an underscore. -/
def isWordChar (c : Char) : Bool :=
  c.isAlphanum || c == '_'

/-- Whether position `i` of `t` (a gap position, `0 ≤ i ≤ t.length`) is a word
boundary: the characters on the two sides of the gap disagree about being word
characters, with both ends of the string counting as non-word. -/
def boundaryAt (t : List Char) (i : Nat) : Bool :=
  (if i = 0 then false
   else match t[i - 1]? with
        | some c => isWordChar c
        | none => false)
  != (match t[i]? with
      | some c => isWordChar c
      | none => false)

/-- The regular-expression constructs reachable from `check_clauses`: the
patterns it builds are a word-boundary assertion, then the escape of a keyword
(literal characters only), then a word-boundary assertion.  `anyChar` is the
unescaped dot metacharacter; it is included so that escaping is not vacuous:
an unescaped dot would match any non-newline character. -/
inductive Tok where
  | lit (c : Char)
  | anyChar
  | wordBoundary
deriving DecidableEq, Repr

/-- The characters `re.escape` prefixes with a backslash (Python 3.7+): the
regex metacharacters together with whitespace and the hash sign. -/
def isSpecialChar (c : Char) : Bool :=
  c == '(' || c == ')' || c == '[' || c == ']' || c == '?' || c == '*' ||
  c == '+' || c == '-' || c == '|' || c == '^' || c == '$' || c == '\\' ||
  c == '.' || c == '&' || c == '~' || c == '#' || c == ' ' || c == '\t' ||
  c == '\n' || c == '\r' || c == '\x0b' || c == '\x0c' ||
  c == '\x7b' || c == '\x7d'

/-- Embedding of `re.escape`: special characters receive a backslash, all
other characters pass through. -/
def reEscape (ks : List Char) : List Char :=
  ks.flatMap (fun c => if isSpecialChar c then ['\\', c] else [c])

/-- Parse a pattern string of the reachable fragment into tokens: a backslash
followed by `b` is a word-boundary assertion, a backslash followed by any
other character is that literal character, a bare dot is the any-character
metacharacter, and every other character stands for itself. -/
def parseTokens : List Char → List Tok
  | [] => []
  | '\\' :: c :: rest =>
      (if c = 'b' then Tok.wordBoundary else Tok.lit c) :: parseTokens rest
  | '\\' :: [] => []
  | c :: rest =>
      (if c = '.' then Tok.anyChar else Tok.lit c) :: parseTokens rest

/-- Whether the token sequence matches the text `t` starting at position `i`
(the end of the match is unconstrained, as in a regex search). -/
def matchToks : List Tok → List Char → Nat → Bool
  | [], _, _ => true
  | Tok.wordBoundary :: rest, t, i => boundaryAt t i && matchToks rest t i
  | Tok.lit c :: rest, t, i =>
      (t[i]? == some c) && matchToks rest t (i + 1)
  | Tok.anyChar :: rest, t, i =>
      (match t[i]? with
       | some c => c != '\n'
       | none => false) && matchToks rest t (i + 1)

/-- Embedding of `re.search` on the reachable fragment: the pattern matches
at some start position of the text (including the position past the end). -/
def regexSearch (p : List Tok) (t : List Char) : Bool :=
  (List.range (t.length + 1)).any (fun i => matchToks p t i)

/-- The pattern `check_clauses` builds for one keyword: a word boundary, the
escaped keyword, a word boundary. -/
def keywordPattern (k : String) : List Tok :=
  parseTokens (['\\', 'b'] ++ reEscape k.data ++ ['\\', 'b'])

/-- Embedding of `str.lower` on the program's Latin texts. -/
def lowerChars (t : List Char) : List Char :=
  t.map Char.toLower

/-- Embedding of `check_clauses`: lowercase the text once, then for each
clause of the dictionary (in order) record whether any of its keywords'
word-boundary patterns is found in the lowered text.  The Python dict is
modelled as an insertion-ordered association list. -/
def check_clauses (text : String) (clause_dict : List (String × List String)) :
    List (String × Bool) :=
  let text_lower := lowerChars text.data
  clause_dict.map (fun p =>
    (p.1, p.2.any (fun keyword => regexSearch (keywordPattern keyword) text_lower)))

/-- The commercial clause taxonomy, verbatim from the source. -/
def commercial_clauses : List (String × List String) :=
  [("Payment Terms", ["payment terms", "terms of payment", "payment schedule"]),
   ("IP", ["intellectual property", "IP rights", "ownership of work"]),
   ("Delivery Terms", ["delivery terms", "delivery schedule", "shipment terms"]),
   ("Warranties and Representations", ["warranties", "representations", "guarantees"])]

/-- The legal clause taxonomy, verbatim from the source. -/
def legal_clauses : List (String × List String) :=
  [("Indemnification", ["indemnification", "hold harmless"]),
   ("Termination", ["termination", "end of agreement", "contract termination"]),
   ("Confidentiality", ["confidentiality", "non-disclosure", "nda"]),
   ("Limitation of Liability", ["limitation of liability", "liability cap", "liability limit"])]

/-- Specification-side predicate: the phrase `ks` occurs in `t` starting at
`i` as an exact contiguous run of characters, bounded by word boundaries on
both sides. -/
def occursWholeAt (t ks : List Char) (i : Nat) : Bool :=
  ((t.drop i).take ks.length == ks) && boundaryAt t i && boundaryAt t (i + ks.length)

/-- Specification-side predicate: the phrase `ks` occurs somewhere in `t` as
an exact whole-phrase match bounded by word boundaries. -/
def occursWhole (t ks : List Char) : Bool :=
  (List.range (t.length + 1)).any (fun i => occursWholeAt t ks i)

/-- An uploaded file as the extraction dispatch sees it: the declared media
type plus the content as each library collaborator would deliver it
(paragraph texts of the DOCX parser, per-page extraction results of the PDF
reader where a page may yield no text, and the raw byte payload). -/
structure UploadedFile where
  type : String
  paragraphs : List String
  pages : List (Option String)
  bytes : List Nat
deriving DecidableEq, Repr

/-- The exception a failed byte decode raises in the plain-text branch. -/
inductive PyExn where
  | unicodeDecodeError
deriving DecidableEq, Repr

/-- Whether a byte is a UTF-8 continuation byte. -/
def isContByte (b : Nat) : Bool :=
  0x80 ≤ b && b ≤ 0xBF

/-- Strict UTF-8 decoding of a byte list, with fuel bounding the recursion
(one unit per decoded character suffices since every character consumes at
least one byte).  Overlong encodings, surrogate code points and out-of-range
leads are rejected, as in a strict decode. -/
def utf8DecodeAux : Nat → List Nat → Option (List Char)
  | _, [] => some []
  | 0, _ :: _ => none
  | fuel + 1, b :: rest =>
    if b < 0x80 then
      (utf8DecodeAux fuel rest).map (fun cs => Char.ofNat b :: cs)
    else if b < 0xC2 then
      none
    else if b ≤ 0xDF then
      match rest with
      | c1 :: rest₁ =>
        if isContByte c1 then
          (utf8DecodeAux fuel rest₁).map
            (fun cs => Char.ofNat ((b - 0xC0) * 0x40 + (c1 - 0x80)) :: cs)
        else none
      | [] => none
    else if b ≤ 0xEF then
      match rest with
      | c1 :: c2 :: rest₂ =>
        if isContByte c1 && isContByte c2 &&
           (b != 0xE0 || 0xA0 ≤ c1) && (b != 0xED || c1 ≤ 0x9F) then
          (utf8DecodeAux fuel rest₂).map
            (fun cs =>
              Char.ofNat ((b - 0xE0) * 0x1000 + (c1 - 0x80) * 0x40 + (c2 - 0x80)) :: cs)
        else none
      | _ => none
    else if b ≤ 0xF4 then
      match rest with
      | c1 :: c2 :: c3 :: rest₃ =>
        if isContByte c1 && isContByte c2 && isContByte c3 &&
           (b != 0xF0 || 0x90 ≤ c1) && (b != 0xF4 || c1 ≤ 0x8F) then
          (utf8DecodeAux fuel rest₃).map
            (fun cs =>
              Char.ofNat ((b - 0xF0) * 0x40000 + (c1 - 0x80) * 0x1000 +
                          (c2 - 0x80) * 0x40 + (c3 - 0x80)) :: cs)
        else none
      | _ => none
    else
      none

/-- Embedding of a strict UTF-8 decode of the file's byte payload. -/
def utf8Decode (bs : List Nat) : Option String :=
  (utf8DecodeAux bs.length bs).map (fun cs => String.mk cs)

/-- Embedding of `extract_text_from_docx`: join the paragraph texts with a
single newline, in document order. -/
def extract_text_from_docx (paragraphs : List String) : String :=
  String.intercalate "\n" paragraphs

/-- The page loop of `extract_text_from_pdf`: keep, in page order, exactly
the page texts that are truthy (present and non-empty). -/
def pdfCollectTexts : List (Option String) → List String
  | [] => []
  | none :: rest => pdfCollectTexts rest
  | some s :: rest =>
      if s.isEmpty then pdfCollectTexts rest else s :: pdfCollectTexts rest

/-- Embedding of `extract_text_from_pdf`: collect the truthy page texts and
join them with a single newline. -/
def extract_text_from_pdf (pages : List (Option String)) : String :=
  String.intercalate "\n" (pdfCollectTexts pages)

/-- The DOCX media type string the dispatch compares against. -/
def docxMime : String :=
  "application/vnd.openxmlformats-officedocument.wordprocessingml.document"

/-- Embedding of the Python prefix test on strings, computed on the
character lists. -/
def pyStartsWith (s pre : String) : Bool :=
  pre.data.isPrefixOf s.data

/-- Embedding of `extract_text`: dispatch on the declared media type.  The
Python function returns a string, `None` for an unrecognized type (modelled
as `Except.ok none`), or lets a decoding exception escape in the plain-text
branch (modelled as `Except.error`). -/
def extract_text (file : UploadedFile) : Except PyExn (Option String) :=
  if file.type = docxMime then
    Except.ok (some (extract_text_from_docx file.paragraphs))
  else if file.type = "application/pdf" then
    Except.ok (some (extract_text_from_pdf file.pages))
  else if pyStartsWith file.type "text/" then
    match utf8Decode file.bytes with
    | some s => Except.ok (some s)
    | none => Except.error PyExn.unicodeDecodeError
  else
    Except.ok none

/-- The truthiness test `main` applies to the value `extract_text` returned
(`if not text`): `None` and the empty string both fail it, and the batch
analysis proceeds only when it holds. -/
def textTruthy : Option String → Bool
  | none => false
  | some s => !s.isEmpty

/-- Everything the analysis step of `main` produces: the five narrative
strings and the two clause reports. -/
structure AnalysisOutputs where
  summary : String
  obligations : String
  dates : String
  termination : String
  confidentiality : String
  commercial_results : List (String × Bool)
  legal_results : List (String × Bool)
deriving DecidableEq, Repr

/-- The analysis step of `main`: the five remote calls are issued strictly in
sequence with no exception handling, so a failure of any call propagates and
nothing after it runs.  `svc n` is the outcome of the `n`-th remote call in
source order: 0 summary, 1 obligations, 2 dates, 3 termination,
4 confidentiality. -/
def runAnalysis (svc : Nat → Except String String) (text : String) :
    Except String AnalysisOutputs :=
  match svc 0 with
  | Except.error e => Except.error e
  | Except.ok summary =>
    match svc 1 with
    | Except.error e => Except.error e
    | Except.ok obligations =>
      match svc 2 with
      | Except.error e => Except.error e
      | Except.ok dates =>
        match svc 3 with
        | Except.error e => Except.error e
        | Except.ok termination =>
          match svc 4 with
          | Except.error e => Except.error e
          | Except.ok confidentiality =>
            Except.ok
              { summary := summary
                obligations := obligations
                dates := dates
                termination := termination
                confidentiality := confidentiality
                commercial_results := check_clauses text commercial_clauses
                legal_results := check_clauses text legal_clauses }

/-- A remote-service behaviour in which exactly the third call in source
order (the dates call) fails and every other call succeeds. -/
def svcFailDates : Nat → Except String String :=
  fun n => if n = 2 then Except.error "RemoteCallFailure" else Except.ok "ok"

theorem char_toNat_ofNat_of_valid {m : Nat} (h : m.isValidChar) :
    (Char.ofNat m).toNat = m := by
  rw [Char.ofNat, dif_pos h]
  rfl

theorem char_toLower_toLower (c : Char) : c.toLower.toLower = c.toLower := by
  simp only [Char.toLower]
  by_cases h : c.toNat ≥ 65 ∧ c.toNat ≤ 90
  · rw [if_pos h]
    have hv : Nat.isValidChar (c.toNat + 32) := Or.inl (by omega)
    have ht : (Char.ofNat (c.toNat + 32)).toNat = c.toNat + 32 :=
      char_toNat_ofNat_of_valid hv
    rw [if_neg (by rw [ht]; omega)]
  · rw [if_neg h, if_neg h]

theorem parseTokens_reEscape (ks rest : List Char) :
    parseTokens (reEscape ks ++ rest) = ks.map Tok.lit ++ parseTokens rest := by
  induction ks with
  | nil => simp [reEscape]
  | cons c ks ih =>
    by_cases h : isSpecialChar c = true
    · have hb : c ≠ 'b' := by
        intro hc
        subst hc
        simp [isSpecialChar] at h
      have hre : reEscape (c :: ks) = '\\' :: c :: reEscape ks := by
        simp [reEscape, h]
      rw [hre]
      show parseTokens ('\\' :: c :: (reEscape ks ++ rest)) = _
      rw [parseTokens, if_neg hb]
      simp [ih]
    · have hbs : c ≠ '\\' := by
        intro hc
        subst hc
        simp [isSpecialChar] at h
      have hdot : c ≠ '.' := by
        intro hc
        subst hc
        simp [isSpecialChar] at h
      have hre : reEscape (c :: ks) = c :: reEscape ks := by
        simp [reEscape, h]
      rw [hre]
      show parseTokens (c :: (reEscape ks ++ rest)) = _
      rw [parseTokens.eq_def]
      simp [hbs, hdot, ih]

theorem keywordPattern_eq (k : String) :
    keywordPattern k = Tok.wordBoundary :: (k.data.map Tok.lit ++ [Tok.wordBoundary]) := by
  show parseTokens ('\\' :: 'b' :: (reEscape k.data ++ ['\\', 'b'])) = _
  rw [parseTokens, if_pos rfl, parseTokens_reEscape]
  rfl


theorem matchToks_lits_iff (ks : List Char) (rest : List Tok) (t : List Char) (i : Nat) :
    matchToks (ks.map Tok.lit ++ rest) t i = true ↔
      ((t.drop i).take ks.length = ks ∧ matchToks rest t (i + ks.length) = true) := by
  induction ks generalizing i with
  | nil => simp [matchToks]
  | cons c ks ih =>
    rw [List.map_cons, List.cons_append, matchToks]
    rw [Bool.and_eq_true, beq_iff_eq, ih]
    by_cases hlt : i < t.length
    · rw [List.drop_eq_getElem_cons hlt]
      have hget : t[i]? = some t[i] := List.getElem?_eq_getElem hlt
      rw [hget, List.length_cons, List.take_succ_cons]
      have harith : i + 1 + ks.length = i + (ks.length + 1) := by omega
      rw [harith]
      constructor
      · rintro ⟨hc, htk, hm⟩
        have hc2 : t[i] = c := by
          injection hc
        rw [hc2, htk]
        exact ⟨rfl, hm⟩
      · rintro ⟨hck, hm⟩
        injection hck with h1 h2
        exact ⟨by rw [h1], h2, hm⟩
    · have hnone : t[i]? = none := List.getElem?_eq_none (by omega)
      have hdrop : t.drop i = [] := List.drop_eq_nil_iff.mpr (by omega)
      rw [hnone, hdrop]
      simp

theorem matchToks_keywordPattern_iff (k : String) (t : List Char) (i : Nat) :
    matchToks (keywordPattern k) t i = true ↔ occursWholeAt t k.data i = true := by
  rw [keywordPattern_eq, matchToks, Bool.and_eq_true, matchToks_lits_iff]
  show _ ↔ (((t.drop i).take k.data.length == k.data) && boundaryAt t i &&
      boundaryAt t (i + k.data.length)) = true
  rw [matchToks, Bool.and_eq_true]
  show _ ↔ _
  simp only [Bool.and_eq_true, beq_iff_eq, matchToks]
  tauto

theorem regexSearch_keywordPattern (k : String) (t : List Char) :
    regexSearch (keywordPattern k) t = occursWhole t k.data := by
  rw [Bool.eq_iff_iff]
  unfold regexSearch occursWhole
  simp only [List.any_eq_true, List.mem_range]
  constructor
  · rintro ⟨i, hi, hm⟩
    exact ⟨i, hi, (matchToks_keywordPattern_iff k t i).mp hm⟩
  · rintro ⟨i, hi, hm⟩
    exact ⟨i, hi, (matchToks_keywordPattern_iff k t i).mpr hm⟩

theorem check_clauses_characterization (text : String) (d : List (String × List String)) :
    check_clauses text d =
      d.map (fun p => (p.1, p.2.any (fun k => occursWhole (lowerChars text.data) k.data))) := by
  unfold check_clauses
  simp only [regexSearch_keywordPattern]

theorem lowerChars_idem (t : List Char) : lowerChars (lowerChars t) = lowerChars t := by
  unfold lowerChars
  rw [List.map_map]
  apply List.map_congr_left
  intro c _
  exact char_toLower_toLower c

theorem occursWhole_self_lowered {t ks : List Char}
    (h : occursWhole (lowerChars t) ks = true) : lowerChars ks = ks := by
  unfold occursWhole at h
  rw [List.any_eq_true] at h
  obtain ⟨i, _, hat⟩ := h
  unfold occursWholeAt at hat
  rw [Bool.and_eq_true, Bool.and_eq_true, beq_iff_eq] at hat
  have htake : ((lowerChars t).drop i).take ks.length = ks := hat.1.1
  have hseg : lowerChars ((t.drop i).take ks.length) = ks := by
    unfold lowerChars
    rw [List.map_take, List.map_drop]
    exact htake
  calc lowerChars ks
      = lowerChars (lowerChars ((t.drop i).take ks.length)) := congrArg lowerChars hseg.symm
    _ = lowerChars ((t.drop i).take ks.length) := lowerChars_idem _
    _ = ks := hseg

/-- C1: the checker marks a clause present only when one of its synonym
phrases occurs in the text as a whole-phrase case-insensitive match bounded
by word boundaries; in particular the fused word nondisclosure does not match
the hyphenated non-disclosure phrase, the sentence naming a Non-Disclosure
Agreement does match it, and determinationally does not trigger the
termination keyword. -/
theorem check_clauses_soundness_and_boundary_examples :
    (∀ (text : String) (d : List (String × List String)) (p : String × Bool),
       p ∈ check_clauses text d → p.2 = true →
       ∃ ks : List String, (p.1, ks) ∈ d ∧ ∃ k ∈ ks,
         occursWhole (lowerChars text.data) (lowerChars k.data) = true) ∧
    regexSearch (keywordPattern "non-disclosure")
      (lowerChars "The nondisclosure obligations survive.".data) = false ∧
    ("Confidentiality", true) ∈
      check_clauses "This is a Non-Disclosure Agreement" legal_clauses ∧
    regexSearch (keywordPattern "termination") (lowerChars "determinationally".data) = false := by
  refine ⟨?_, by decide, by decide, by decide⟩
  intro text d p hp htrue
  rw [check_clauses_characterization] at hp
  rw [List.mem_map] at hp
  obtain ⟨q, hq, hfq⟩ := hp
  subst hfq
  simp only at htrue
  rw [List.any_eq_true] at htrue
  obtain ⟨k, hk, hocc⟩ := htrue
  refine ⟨q.2, hq, k, hk, ?_⟩
  rw [occursWhole_self_lowered hocc]
  exact hocc

/-- Witness for C1 at the Non-Disclosure Agreement sentence. -/
theorem check_soundness_witness :
    ∃ ks : List String, ("Confidentiality", ks) ∈ legal_clauses ∧ ∃ k ∈ ks,
      occursWhole (lowerChars "This is a Non-Disclosure Agreement".data)
        (lowerChars k.data) = true :=
  check_clauses_soundness_and_boundary_examples.1
    "This is a Non-Disclosure Agreement" legal_clauses ("Confidentiality", true)
    (by decide) rfl

/-- C2: for every taxonomy and every text, the report's key list is exactly
the taxonomy's key list — one boolean per key, never missing, never extra. -/
theorem check_clauses_key_set (text : String) (d : List (String × List String)) :
    (check_clauses text d).map Prod.fst = d.map Prod.fst := by
  unfold check_clauses
  rw [List.map_map]
  rfl

/-- C4 counterexample: on the NDA-and-termination sentence the legal check
does not return the report the claim states (Termination comes out false,
because the text says terminated and no synonym of the Termination clause
occurs as a whole phrase). -/
theorem legal_scenario_counterexample :
    check_clauses "This agreement includes an NDA and may be terminated by either party."
        legal_clauses ≠
      [("Indemnification", false), ("Termination", true), ("Confidentiality", true),
       ("Limitation of Liability", false)] := by
  decide

/-- C4 amended: on the NDA-and-termination sentence the legal check returns
Indemnification false, Termination false, Confidentiality true, Limitation of
Liability false. -/
theorem legal_scenario_amended :
    check_clauses "This agreement includes an NDA and may be terminated by either party."
        legal_clauses =
      [("Indemnification", false), ("Termination", false), ("Confidentiality", true),
       ("Limitation of Liability", false)] := by
  decide

/-- C3: the checker lowercases the text but not the taxonomy phrases, so the
IP rights synonym, which contains uppercase letters, can never match: a text
containing exactly IP rights leaves every commercial clause unmarked even
though the phrase occurs case-insensitively with word boundaries. -/
theorem ip_rights_keyword_dead :
    check_clauses "Ownership of IP rights is granted." commercial_clauses =
      [("Payment Terms", false), ("IP", false), ("Delivery Terms", false),
       ("Warranties and Representations", false)] ∧
    occursWhole (lowerChars "Ownership of IP rights is granted.".data)
      (lowerChars "IP rights".data) = true := by
  constructor
  · decide
  · decide


/-- C9: synonym phrases are matched as literal strings — escaping makes every
metacharacter inert — so a clause is marked present exactly when one of its
phrases occurs verbatim in the lowercased text bounded by word boundaries. -/
theorem check_clauses_literal_escaped (text : String) (d : List (String × List String)) :
    check_clauses text d =
      d.map (fun p => (p.1, p.2.any (fun k => occursWhole (lowerChars text.data) k.data))) :=
  check_clauses_characterization text d

theorem pdfCollectTexts_eq_filter (pages : List (Option String)) :
    pdfCollectTexts pages = (pages.filterMap id).filter (fun s => !s.isEmpty) := by
  induction pages with
  | nil => rfl
  | cons p rest ih =>
    cases p with
    | none => simp [pdfCollectTexts, ih]
    | some s =>
      by_cases h : s.isEmpty
      · simp [pdfCollectTexts, h, ih]
      · simp [pdfCollectTexts, h, ih]

/-- C8: PDF extraction keeps the per-page texts in page order, drops exactly
the pages whose extracted text is absent or empty, and joins the remaining
page texts with a single newline. -/
theorem pdf_page_order_drop_join (pages : List (Option String)) :
    extract_text_from_pdf pages =
      String.intercalate "\n" ((pages.filterMap id).filter (fun s => !s.isEmpty)) := by
  unfold extract_text_from_pdf
  rw [pdfCollectTexts_eq_filter]

theorem pdfCollectTexts_nil_of_all_empty (pages : List (Option String))
    (h : ∀ p ∈ pages, p = none ∨ p = some "") : pdfCollectTexts pages = [] := by
  induction pages with
  | nil => rfl
  | cons p rest ih =>
    have hp := h p (List.mem_cons_self p rest)
    have hrest : ∀ q ∈ rest, q = none ∨ q = some "" :=
      fun q hq => h q (List.mem_cons_of_mem p hq)
    rcases hp with hp | hp
    · rw [hp]
      exact ih hrest
    · rw [hp]
      show (if String.isEmpty "" = true then pdfCollectTexts rest
            else "" :: pdfCollectTexts rest) = []
      have hem : String.isEmpty "" = true := rfl
      rw [if_pos hem]
      exact ih hrest

/-- C5: a file declared as plain text with byte content Hello-newline-World
extracts to exactly that string, and a file whose declared media type matches
none of the three recognized types yields the graceful failure value. -/
theorem plain_text_verbatim_and_unrecognized_none :
    extract_text { type := "text/plain", paragraphs := [], pages := [],
                   bytes := [72, 101, 108, 108, 111, 10, 87, 111, 114, 108, 100] } =
      Except.ok (some "Hello\nWorld") ∧
    ∀ f : UploadedFile, f.type ≠ docxMime → f.type ≠ "application/pdf" →
      pyStartsWith f.type "text/" = false → extract_text f = Except.ok none := by
  constructor
  · rfl
  · intro f h1 h2 h3
    unfold extract_text
    rw [if_neg h1, if_neg h2, if_neg (by rw [h3]; exact Bool.false_ne_true)]

/-- Witness for C5 at a concrete unrecognized media type. -/
theorem plain_text_verbatim_witness :
    extract_text { type := "image/png", paragraphs := [], pages := [], bytes := [1, 2, 3] } =
      Except.ok none :=
  plain_text_verbatim_and_unrecognized_none.2
    { type := "image/png", paragraphs := [], pages := [], bytes := [1, 2, 3] }
    (by decide) (by decide) (by decide)

/-- C6 counterexample: a PDF whose every page yields empty or absent text
extracts to the successful empty string, not to the graceful failure value. -/
theorem empty_pdf_counterexample :
    extract_text { type := "application/pdf", paragraphs := [], pages := [none, some ""],
                   bytes := [] } = Except.ok (some "") ∧
    (Except.ok (some "") : Except PyExn (Option String)) ≠ Except.ok none := by
  constructor
  · rfl
  · intro h
    exact Option.noConfusion (Except.ok.inj h)

/-- C6 amended: extraction of an all-empty PDF returns the empty string, and
the caller's truthiness guard then treats that value as a failure, so the
batch analysis does not proceed. -/
theorem empty_pdf_amended (f : UploadedFile) (h1 : f.type = "application/pdf")
    (h2 : ∀ p ∈ f.pages, p = none ∨ p = some "") :
    extract_text f = Except.ok (some "") ∧ textTruthy (some "") = false := by
  constructor
  · unfold extract_text
    rw [if_neg (by rw [h1]; decide), if_pos h1]
    unfold extract_text_from_pdf
    rw [pdfCollectTexts_nil_of_all_empty f.pages h2]
    rfl
  · rfl

/-- Witness for the amended C6 at a concrete all-empty PDF. -/
theorem empty_pdf_amended_witness :
    extract_text { type := "application/pdf", paragraphs := [], pages := [some "", none],
                   bytes := [] } = Except.ok (some "") ∧ textTruthy (some "") = false :=
  empty_pdf_amended
    { type := "application/pdf", paragraphs := [], pages := [some "", none], bytes := [] }
    rfl (by decide)

/-- C7 counterexample: when the dates call fails and every other call
succeeds, the analysis step of main aborts with that failure and the caller
receives none of the other results. -/
theorem dates_failure_aborts_batch :
    runAnalysis svcFailDates "This agreement is made between the parties." =
      Except.error "RemoteCallFailure" := rfl

/-- C7 amended: a failure of the dates call, after the first two calls
succeed, propagates as the outcome of the whole analysis step. -/
theorem dates_failure_amended (svc : Nat → Except String String) (text s0 s1 e : String)
    (h0 : svc 0 = Except.ok s0) (h1 : svc 1 = Except.ok s1)
    (h2 : svc 2 = Except.error e) : runAnalysis svc text = Except.error e := by
  unfold runAnalysis
  rw [h0, h1, h2]

/-- Witness for the amended C7 at a concrete failing service. -/
theorem dates_failure_amended_witness :
    runAnalysis svcFailDates "x" = Except.error "RemoteCallFailure" :=
  dates_failure_amended svcFailDates "x" "ok" "ok" "RemoteCallFailure" rfl rfl rfl

/-- C10: a file declared with a text media type whose bytes are not valid
UTF-8 makes extraction raise the decoding exception, and the graceful failure
value arises only for media types outside the three recognized kinds. -/
theorem invalid_utf8_raises_and_none_only_unrecognized :
    (∀ f : UploadedFile, pyStartsWith f.type "text/" = true → utf8Decode f.bytes = none →
       extract_text f = Except.error PyExn.unicodeDecodeError) ∧
    (∀ f : UploadedFile, extract_text f = Except.ok none →
       f.type ≠ docxMime ∧ f.type ≠ "application/pdf" ∧
       pyStartsWith f.type "text/" = false) := by
  constructor
  · intro f h1 h2
    have hd : f.type ≠ docxMime := by
      intro he
      rw [he] at h1
      exact absurd h1 (by decide)
    have hp : f.type ≠ "application/pdf" := by
      intro he
      rw [he] at h1
      exact absurd h1 (by decide)
    unfold extract_text
    rw [if_neg hd, if_neg hp, if_pos h1, h2]
  · intro f h
    unfold extract_text at h
    by_cases hd : f.type = docxMime
    · rw [if_pos hd] at h
      exact absurd h (by simp)
    by_cases hp : f.type = "application/pdf"
    · rw [if_neg hd, if_pos hp] at h
      exact absurd h (by simp)
    by_cases ht : pyStartsWith f.type "text/" = true
    · rw [if_neg hd, if_neg hp, if_pos ht] at h
      cases hu : utf8Decode f.bytes with
      | some s =>
        rw [hu] at h
        exact absurd h (by simp)
      | none =>
        rw [hu] at h
        exact absurd h (by simp)
    · exact ⟨hd, hp, Bool.not_eq_true _ ▸ ht⟩

/-- Witness for C10 at a concrete text file with an invalid byte. -/
theorem invalid_utf8_witness :
    extract_text { type := "text/plain", paragraphs := [], pages := [], bytes := [255] } =
      Except.error PyExn.unicodeDecodeError :=
  invalid_utf8_raises_and_none_only_unrecognized.1
    { type := "text/plain", paragraphs := [], pages := [], bytes := [255] }
    (by decide) (by decide)
